import Mathlib

/-!
# nominate_cmodule: the library smoke test of `src/main.cpp`

A shallow embedding of the single translation unit `src/main.cpp`.

Modelling conventions.

* A C++ `double` is an element of a linearly ordered field `K`, with exact
  arithmetic. Rounding, overflow, infinities and NaN are outside the model.
  Taking `K = ℚ` makes every definition below runnable; taking `K = ℝ` gives
  access to derivatives, `erf`, `sqrt` and `log`. The points at which the
  evaluators are run on concrete input below, `(2, 1)` and `(1.5, 1.5)`, and the
  values obtained there (`0` and `0.5`) are dyadic rationals, on which binary
  floating point arithmetic is exact as well.
* The console is a list of lines; a line is the list of the items that one
  `std::cout << a << b << ... << std::endl` statement inserts, in order.
* A nullable out-parameter `double *grad` is an `Option`: `none` is the null
  pointer, `some g` a buffer of two doubles with current contents `g`. The
  buffer contents after the call are part of the result.
* What the external libraries (NLopt, the C math library) do is an input of
  the model, never an assumption about them.
-/

namespace Nominate

/-! ## Console model -/

/-- Vector of two doubles (`Eigen::Vector2d`). -/
structure Vector2d (K : Type) where
  v0 : K
  v1 : K
deriving DecidableEq, Repr

/-- Matrix of two by two doubles (`Eigen::Matrix2d`); `mIJ` is row `I`, column `J`. -/
structure Matrix2d (K : Type) where
  m00 : K
  m01 : K
  m10 : K
  m11 : K
deriving DecidableEq, Repr

/-- One item inserted into `std::cout`. -/
inductive Tok (K : Type) where
  /-- String literal. -/
  | str : String → Tok K
  /-- Value of type `double`. -/
  | num : K → Tok K
  /-- Integer value (an `int`, or an enum printed as its integer value). -/
  | int : Int → Tok K
  /-- Value of type `Eigen::Vector2d`. -/
  | vec : Vector2d K → Tok K
  /-- Value of type `Eigen::Matrix2d`. -/
  | mat : Matrix2d K → Tok K
deriving DecidableEq, Repr

/-- One console line: the items of one `std::cout << ... << std::endl` statement. -/
abbrev Line (K : Type) := List (Tok K)

/-! ## Objective and constraint evaluators (`main.cpp` lines 23-46) -/

/-- Result of one evaluator call: the returned double, the gradient buffer after
the call (`none` when the caller passed a null pointer) and the lines printed. -/
structure Call (K : Type) where
  ret : K
  grad : Option (K × K)
  out : List (Line K)
deriving DecidableEq, Repr

variable {K : Type} [LinearOrderedField K]

/-- Embedding of `double objective_function(unsigned n, const double *x, double *grad, void *data)`.
`x` is the pair `(x[0], x[1])`; the unused `data` pointer is dropped.
`std::pow(t, 2)` is `t ^ 2`. -/
def objective_function (n : Nat) (x : K × K) (grad : Option (K × K)) : Call K :=
  let grad1 : Option (K × K) :=
    match grad with
    | some _ => some (2 * (x.1 - 2), 2 * (x.2 - 1))
    | none => none
  let fx : K := (x.1 - 2) ^ 2 + (x.2 - 1) ^ 2
  { ret := fx
    grad := grad1
    out := [[Tok.str "  f(", Tok.num x.1, Tok.str ", ", Tok.num x.2, Tok.str ") = ", Tok.num fx]] }

/-- Embedding of `double constraint_function(unsigned n, const double *x, double *grad, void *data)`. -/
def constraint_function (n : Nat) (x : K × K) (grad : Option (K × K)) : Call K :=
  let grad1 : Option (K × K) :=
    match grad with
    | some _ => some (1, 1)
    | none => none
  { ret := x.1 + x.2 - 3
    grad := grad1
    out := [] }

/-- Lower bounds `{-5.0, -5.0}` of `main.cpp` line 88. -/
def lower_bounds : K × K := (-5, -5)

/-- Upper bounds `{5.0, 5.0}` of `main.cpp` line 89. -/
def upper_bounds : K × K := (5, 5)

/-- Point within the box constraints handed to the solver. -/
def in_bounds (x : K × K) : Prop :=
  (lower_bounds : K × K).1 ≤ x.1 ∧ x.1 ≤ (upper_bounds : K × K).1 ∧
  (lower_bounds : K × K).2 ≤ x.2 ∧ x.2 ≤ (upper_bounds : K × K).2

/-- Feasibility as the constraint evaluator defines it: its result is `<= 0`. -/
def feasible (x : K × K) : Prop :=
  (constraint_function 2 x none).ret ≤ 0

instance (x : K × K) : Decidable (in_bounds x) := by
  unfold in_bounds; infer_instance

instance (x : K × K) : Decidable (feasible x) := by
  unfold feasible; infer_instance

/-! ## Matrix probe (`main.cpp` lines 52-62) -/

/-- Dot product of two vectors of two doubles. -/
def Vector2d.dot (a b : Vector2d K) : K :=
  a.v0 * b.v0 + a.v1 * b.v1

/-- First row of a matrix. -/
def Matrix2d.row0 (a : Matrix2d K) : Vector2d K := ⟨a.m00, a.m01⟩

/-- Second row of a matrix. -/
def Matrix2d.row1 (a : Matrix2d K) : Vector2d K := ⟨a.m10, a.m11⟩

/-- Dense matrix-vector product `mat * vec` of Eigen for the fixed sizes used:
entry `i` of the result is the sum over `j` of `mat(i, j) * vec(j)`. -/
def Matrix2d.mulVec (a : Matrix2d K) (b : Vector2d K) : Vector2d K :=
  ⟨a.m00 * b.v0 + a.m01 * b.v1, a.m10 * b.v0 + a.m11 * b.v1⟩

/-- View of a `Matrix2d` as a Mathlib matrix. -/
def Matrix2d.toMatrix (a : Matrix2d K) : Matrix (Fin 2) (Fin 2) K :=
  Matrix.of ![![a.m00, a.m01], ![a.m10, a.m11]]

/-- View of a `Vector2d` as a Mathlib vector. -/
def Vector2d.toFun (b : Vector2d K) : Fin 2 → K :=
  ![b.v0, b.v1]

/-- Matrix built by `mat << 1, 2, 3, 4;` (the comma initialiser fills row by row). -/
def mat : Matrix2d K := ⟨1, 2, 3, 4⟩

/-- Vector built by `Eigen::Vector2d vec(5, 6);`. -/
def vec : Vector2d K := ⟨5, 6⟩

/-- Value of `Eigen::Vector2d result = mat * vec;`. -/
def result : Vector2d K := Matrix2d.mulVec mat vec

/-- Lines printed by the matrix probe. -/
def matrix_probe : List (Line K) :=
  [ [Tok.str "Prueba de Eigen"],
    [Tok.str "Matrix A:\n", Tok.mat mat],
    [Tok.str "Vector b:\n", Tok.vec vec],
    [Tok.str "Resultado A*b:\n", Tok.vec result],
    [Tok.str "Eigen funciona correctamente!"] ]

/-! ## Termination classification and solution report (`main.cpp` lines 113-147) -/

/-- Modelled from the spec: the enumerators of `nlopt_result` come from the NLopt
header `nlopt.h`, which is not among the sources. `NLOPT_SUCCESS` is 1. -/
def NLOPT_SUCCESS : Int := 1

/-- Modelled from the spec: `nlopt.h` is not among the sources. `NLOPT_FTOL_REACHED` is 3. -/
def NLOPT_FTOL_REACHED : Int := 3

/-- Modelled from the spec: `nlopt.h` is not among the sources. `NLOPT_XTOL_REACHED` is 4. -/
def NLOPT_XTOL_REACHED : Int := 4

/-- Modelled from the spec: `nlopt.h` is not among the sources. `NLOPT_MAXEVAL_REACHED` is 5. -/
def NLOPT_MAXEVAL_REACHED : Int := 5

/-- Line printed by the `default:` branch of the `switch`. -/
def failure_message (result_opt : Int) : Line K :=
  [Tok.str "Error en optimizacion (codigo: ", Tok.int result_opt, Tok.str ")"]

/-- The `switch (result_opt)` of lines 113-128: the line it prints. The cases are
tried in the order of the source; every case ends in `break`. -/
def termination_message (result_opt : Int) : Line K :=
  if result_opt = NLOPT_SUCCESS then
    [Tok.str "Optimizacion EXITOSA (convergencia)"]
  else if result_opt = NLOPT_XTOL_REACHED then
    [Tok.str "Optimizacion EXITOSA (tolerancia alcanzada)"]
  else if result_opt = NLOPT_FTOL_REACHED then
    [Tok.str "Optimizacion EXITOSA (tolerancia de función)"]
  else if result_opt = NLOPT_MAXEVAL_REACHED then
    [Tok.str "Maximo numero de evaluaciones alcanzado"]
  else
    failure_message result_opt

/-- Line printed by the constraint re-check of lines 139-143. -/
def constraint_check (constraint_value : K) : Line K :=
  if constraint_value ≤ 3.001 then
    [Tok.str "Restriccion satisfecha"]
  else
    [Tok.str "Restriccion violada"]

/-- The `if (result_opt > 0)` block of lines 130-147: the lines it prints, given
the termination code and the contents of `x` and `minf` after the solver call. -/
def solution_report (result_opt : Int) (x : K × K) (minf : K) : List (Line K) :=
  if 0 < result_opt then
    let constraint_value : K := x.1 + x.2
    [ [Tok.str "Solucion encontrada:"],
      [Tok.str "  x* = (", Tok.num x.1, Tok.str ", ", Tok.num x.2, Tok.str ")"],
      [Tok.str "  f(x*) = ", Tok.num minf],
      [Tok.str "  Restriccion x+y = ", Tok.num constraint_value, Tok.str " (<= 3)"],
      constraint_check constraint_value,
      [Tok.str "\nSolucion teorica esperada: (1.5, 1.5) con f = 0.5"] ]
  else
    []

/-! ## Normal distribution helpers (`main.cpp` lines 11-21) -/

/-- The three functions of the C math library that `math_utils` calls. -/
structure Libm (K : Type) where
  erf : K → K
  sqrt : K → K
  log : K → K

/-- Embedding of `math_utils::normal_cdf(double x, double mean = 0.0, double std = 1.0)`.
The default arguments are passed explicitly by the callers below. -/
def normal_cdf (m : Libm K) (x mean std : K) : K :=
  0.5 * (1.0 + m.erf ((x - mean) / (std * m.sqrt 2.0)))

/-- Embedding of `math_utils::normal_logcdf(double x, double mean = 0.0, double std = 1.0)`. -/
def normal_logcdf (m : Libm K) (x mean std : K) : K :=
  m.log (normal_cdf m x mean std)

/-- Lines printed by the distribution probe and the closing line (lines 159-166). -/
def distribution_probe (m : Libm K) : List (Line K) :=
  let test_val : K := 0.0
  [ [Tok.str "\n3. Test Distribución Normal:"],
    [Tok.str "   CDF(0) = ", Tok.num (normal_cdf m test_val 0.0 1.0), Tok.str " (esperado: ~0.5)"],
    [Tok.str "   logCDF(0) = ", Tok.num (normal_logcdf m test_val 0.0 1.0),
      Tok.str " (esperado: ~-0.693)"],
    [Tok.str "\nTodas las librerias funcionan correctamente"] ]

/-! ## The entry point (`main.cpp` lines 48-168) -/

/-- What the environment of one run decides: the build flag and the behaviour of
the external libraries. Nothing is assumed about these values. -/
structure World (K : Type) where
  /-- `none` when built without `USE_OPENMP`, else the value of `omp_get_max_threads()`. -/
  openmp : Option Int
  /-- Whether `nlopt_create` returns a non-null handle. -/
  created : Bool
  /-- The calls of `objective_function` that `nlopt_optimize` makes, in order:
  the point and the gradient pointer it passes. -/
  evals : List ((K × K) × Option (K × K))
  /-- How `nlopt_optimize` ends: `none` when an exception leaves the call, else the
  returned code and the contents of `x` and `minf` after the call. -/
  outcome : Option (Int × (K × K) × K)

/-- How control leaves the `try` block. -/
inductive Flow where
  /-- The block ran to its end. -/
  | next : Flow
  /-- A `return code;` inside the block was executed. -/
  | ret : Int → Flow
  /-- An exception left the block. -/
  | thrown : Flow
deriving DecidableEq, Repr

/-- Lines of the conditionally compiled OpenMP block (lines 65-68). -/
def openmp_probe (w : World K) : List (Line K) :=
  match w.openmp with
  | some threads => [[Tok.str "\n OpenMP:"], [Tok.str "Disponible, threads: ", Tok.int threads]]
  | none => []

/-- Lines printed by the objective evaluations the solver makes. -/
def solver_trace (evals : List ((K × K) × Option (K × K))) : List (Line K) :=
  evals.flatMap (fun e => (objective_function 2 e.1 e.2).out)

/-- Body of the `try` block (lines 73-152): the lines printed and how control leaves. -/
def optimizer_probe (w : World K) : List (Line K) × Flow :=
  if w.created = false then
    ([[Tok.str "Error: No se pudo crear el optimizador NLopt"]], Flow.ret 1)
  else
    let x : K × K := (0.0, 0.0)
    let intro : List (Line K) :=
      [ [Tok.str "Problema de optimizacion:"],
        [Tok.str "  Minimizar: f(x,y) = (x-2)^2 + (y-1)^2"],
        [Tok.str "  Sujeto a: x + y <= 3"],
        [Tok.str "  Punto inicial: (", Tok.num x.1, Tok.str ", ", Tok.num x.2, Tok.str ")"],
        [Tok.str "\nEjecutando optimizacion..."] ]
    match w.outcome with
    | none => (intro ++ solver_trace w.evals, Flow.thrown)
    | some (result_opt, xs, minf) =>
      (intro ++ solver_trace w.evals ++ [[Tok.str "\n--- RESULTADOS ---"]] ++
        [termination_message result_opt] ++ solution_report result_opt xs minf ++
        [[Tok.str "\nNLopt funciona correctamente!"]], Flow.next)

/-- Embedding of `int main()`: the console transcript and the exit code. -/
def main (m : Libm K) (w : World K) : List (Line K) × Int :=
  let head : List (Line K) := matrix_probe ++ openmp_probe w ++ [[Tok.str "\nPrueba de NLopt"]]
  match optimizer_probe w with
  | (out, Flow.ret code) => (head ++ out, code)
  | (out, Flow.thrown) => (head ++ out ++ [[Tok.str "Error inesperado en NLopt"]], 1)
  | (out, Flow.next) => (head ++ out ++ distribution_probe m, 0)

/-! ## The real-valued math library -/

/-- The error function: `erf x` is `2 / sqrt pi` times the integral of
`exp (-t^2)` for `t` from `0` to `x`. -/
noncomputable def erf (x : ℝ) : ℝ :=
  2 / Real.sqrt Real.pi * ∫ t in (0 : ℝ)..x, Real.exp (-(t ^ 2))

/-- The C math library over the reals: `std::erf`, `std::sqrt` and `std::log`. -/
noncomputable def realLibm : Libm ℝ where
  erf := erf
  sqrt := Real.sqrt
  log := Real.log

/-- A run in which the optimizer is created and the solver returns the failure
code `-1` (`NLOPT_FAILURE`) without having moved from the start point. -/
noncomputable def failed_run : World ℝ :=
  World.mk none true [] (some (-1, (0, 0), 5))

/-! ## Evaluators: value and gradient -/

/-- C1: for every point `(x, y)`, `objective_function` returns
`(x - 2)^2 + (y - 1)^2`; with a gradient buffer the buffer ends up holding
`(2(x - 2), 2(y - 1))`; without one the returned value is the same and no
gradient exists afterwards; over the reals the two buffer entries are the
derivatives of the returned value in `x` and in `y`. -/
theorem objective_function_contract (n : Nat) (x y : K) (g : K × K) :
    (objective_function n (x, y) (some g)).ret = (x - 2) ^ 2 + (y - 1) ^ 2 ∧
    (objective_function n (x, y) (some g)).grad = some (2 * (x - 2), 2 * (y - 1)) ∧
    (objective_function n (x, y) none).ret = (objective_function n (x, y) (some g)).ret ∧
    (objective_function n (x, y) none).grad = none ∧
    (∀ (a b : ℝ) (h : Option (ℝ × ℝ)),
      HasDerivAt (fun t : ℝ => (objective_function n (t, b) h).ret) (2 * (a - 2)) a ∧
      HasDerivAt (fun t : ℝ => (objective_function n (a, t) h).ret) (2 * (b - 1)) b) := by
  refine ⟨rfl, rfl, rfl, rfl, ?_⟩
  intro a b h
  constructor
  · have h1 : HasDerivAt (fun t : ℝ => (t - 2) ^ 2 + (b - 1) ^ 2) (2 * (a - 2)) a := by
      have := ((hasDerivAt_id a).sub_const 2).pow 2
      simpa using this.add_const ((b - 1) ^ 2)
    exact h1
  · have h2 : HasDerivAt (fun t : ℝ => (a - 2) ^ 2 + (t - 1) ^ 2) (2 * (b - 1)) b := by
      have := ((hasDerivAt_id b).sub_const 1).pow 2
      simpa using this.const_add ((a - 2) ^ 2)
    exact h2

/-- C2: for every point `(x, y)`, `constraint_function` returns `x + y - 3`, which
is `<= 0` exactly when `x + y <= 3`; with a gradient buffer the buffer ends up
holding `(1, 1)`; without one the returned value is the same and no gradient
exists afterwards. -/
theorem constraint_function_contract (n : Nat) (x y : K) (g : K × K) :
    (constraint_function n (x, y) (some g)).ret = x + y - 3 ∧
    ((constraint_function n (x, y) (some g)).ret ≤ 0 ↔ x + y ≤ 3) ∧
    (constraint_function n (x, y) (some g)).grad = some (1, 1) ∧
    (constraint_function n (x, y) none).ret = (constraint_function n (x, y) (some g)).ret ∧
    (constraint_function n (x, y) none).grad = none := by
  refine ⟨rfl, ?_, rfl, rfl, rfl⟩
  show x + y - 3 ≤ 0 ↔ x + y ≤ 3
  exact sub_nonpos

/-! ## The optimum of the probe's problem -/

/-- C3, evaluation at the point `(2, 1)`: it lies in the box, the constraint
evaluator returns `0` there (feasible), and the objective is `0`, strictly below
the value `0.5` that the objective takes at `(1.5, 1.5)`. -/
theorem objective_below_half_at_feasible_point :
    in_bounds ((2 : ℚ), (1 : ℚ)) ∧
    (constraint_function 2 ((2 : ℚ), (1 : ℚ)) none).ret = 0 ∧
    feasible ((2 : ℚ), (1 : ℚ)) ∧
    (objective_function 2 ((2 : ℚ), (1 : ℚ)) none).ret = 0 ∧
    (objective_function 2 ((1.5 : ℚ), (1.5 : ℚ)) none).ret = 0.5 ∧
    (objective_function 2 ((2 : ℚ), (1 : ℚ)) none).ret <
      (objective_function 2 ((1.5 : ℚ), (1.5 : ℚ)) none).ret := by
  refine ⟨?_, ?_, ?_, ?_, ?_, ?_⟩ <;>
    norm_num [in_bounds, feasible, lower_bounds, upper_bounds, constraint_function,
      objective_function]

/-- C4, as stated, fails: the constraint evaluator at `(2, 1)` does return a value `<= 0`. -/
theorem unconstrained_minimiser_not_infeasible :
    ¬ ¬ ((constraint_function 2 ((2 : ℚ), (1 : ℚ)) none).ret ≤ 0) := by
  norm_num [constraint_function]

/-- C4, amended: `(2, 1)` is the unique unconstrained minimiser of
`objective_function`, and it does not violate the inequality constraint: the
constraint evaluator returns exactly `0` there, which meets the feasibility
condition (result `<= 0`) as a boundary case. -/
theorem unconstrained_minimiser_on_boundary (n : Nat) (x y : K) :
    (objective_function n ((2 : K), (1 : K)) none).ret ≤ (objective_function n (x, y) none).ret ∧
    ((objective_function n (x, y) none).ret = (objective_function n ((2 : K), (1 : K)) none).ret ↔
      x = 2 ∧ y = 1) ∧
    (constraint_function n ((2 : K), (1 : K)) none).ret = 0 ∧
    (constraint_function n ((2 : K), (1 : K)) none).ret ≤ 0 ∧
    feasible ((2 : K), (1 : K)) := by
  have e : (objective_function n (x, y) none).ret = (x - 2) ^ 2 + (y - 1) ^ 2 := rfl
  have e0 : (objective_function n ((2 : K), (1 : K)) none).ret = 0 := by
    simp [objective_function]
  have c0 : (constraint_function n ((2 : K), (1 : K)) none).ret = 0 := by
    norm_num [constraint_function]
  have c1 : (constraint_function 2 ((2 : K), (1 : K)) none).ret = 0 := by
    norm_num [constraint_function]
  refine ⟨?_, ?_, c0, c0.le, ?_⟩
  · rw [e, e0]; positivity
  · rw [e, e0]
    constructor
    · intro h
      have hx : (x - 2) ^ 2 = 0 := by nlinarith [sq_nonneg (x - 2), sq_nonneg (y - 1)]
      have hy : (y - 1) ^ 2 = 0 := by nlinarith [sq_nonneg (x - 2), sq_nonneg (y - 1)]
      exact ⟨sub_eq_zero.mp (pow_eq_zero_iff (two_ne_zero) |>.mp hx),
        sub_eq_zero.mp (pow_eq_zero_iff (two_ne_zero) |>.mp hy)⟩
    · rintro ⟨rfl, rfl⟩
      simp
  · show (constraint_function 2 ((2 : K), (1 : K)) none).ret ≤ 0
    exact c1.le

/-! ## Termination classification -/

/-- C6: for every code `r`, point `(x, y)` and value `minf`, each line of the
solution report (header, point, objective value, constraint value) is printed
if and only if `r > 0`, and nothing at all is printed otherwise; the line
`Restriccion satisfecha` is printed if and only if `r > 0` and `x + y <= 3.001`,
the line `Restriccion violada` if and only if `r > 0` and not `x + y <= 3.001`;
so for `r > 0` exactly one of the two is printed. -/
theorem solution_report_spec (r : Int) (x y minf : K) :
    ([Tok.str "Solucion encontrada:"] ∈ solution_report r (x, y) minf ↔ 0 < r) ∧
    ([Tok.str "  x* = (", Tok.num x, Tok.str ", ", Tok.num y, Tok.str ")"] ∈
      solution_report r (x, y) minf ↔ 0 < r) ∧
    ([Tok.str "  f(x*) = ", Tok.num minf] ∈ solution_report r (x, y) minf ↔ 0 < r) ∧
    ([Tok.str "  Restriccion x+y = ", Tok.num (x + y), Tok.str " (<= 3)"] ∈
      solution_report r (x, y) minf ↔ 0 < r) ∧
    (solution_report r (x, y) minf = [] ↔ ¬ 0 < r) ∧
    ([Tok.str "Restriccion satisfecha"] ∈ solution_report r (x, y) minf ↔
      0 < r ∧ x + y ≤ 3.001) ∧
    ([Tok.str "Restriccion violada"] ∈ solution_report r (x, y) minf ↔
      0 < r ∧ ¬ x + y ≤ 3.001) ∧
    (0 < r ↔ Xor' ([Tok.str "Restriccion satisfecha"] ∈ solution_report r (x, y) minf)
      ([Tok.str "Restriccion violada"] ∈ solution_report r (x, y) minf)) := by
  by_cases hr : 0 < r <;> by_cases hc : x + y ≤ 3.001 <;>
    simp [solution_report, constraint_check, hr, hc, Xor']

/-! ## Exit code -/

/-- No line of the distribution probe is printed by an objective evaluation. -/
theorem not_mem_solver_trace (m : Libm K) (evals : List ((K × K) × Option (K × K)))
    (l : Line K) (hl : l ∈ distribution_probe m) : l ∉ solver_trace evals := by
  intro h
  simp only [solver_trace, List.mem_flatMap] at h
  obtain ⟨e, -, he⟩ := h
  simp only [objective_function, List.mem_singleton] at he
  subst he
  simp [distribution_probe] at hl

/-- No line of the distribution probe is printed before the `try` block. -/
theorem not_mem_head (m : Libm K) (w : World K)
    (l : Line K) (hl : l ∈ distribution_probe m) :
    l ∉ (matrix_probe ++ openmp_probe w ++ [[Tok.str "\nPrueba de NLopt"]] : List (Line K)) := by
  intro h
  simp only [distribution_probe, List.mem_cons, List.mem_singleton, List.not_mem_nil,
    or_false] at hl
  cases ho : w.openmp <;>
    rcases hl with rfl | rfl | rfl | rfl <;>
    simp [matrix_probe, openmp_probe, ho] at h

/-- When the `try` block runs to its end, `main` goes on with the distribution
probe and returns 0. -/
theorem main_of_next (m : Libm K) (w : World K) (h : (optimizer_probe w).2 = Flow.next) :
    main m w = (matrix_probe ++ openmp_probe w ++ [[Tok.str "\nPrueba de NLopt"]] ++
      (optimizer_probe w).1 ++ distribution_probe m, 0) := by
  unfold main
  generalize optimizer_probe w = p at h
  obtain ⟨out, f⟩ := p
  change f = Flow.next at h
  subst h
  rfl

/-- C7: the exit code is 1 if and only if the optimizer could not be created or
an exception left the optimization call, and 0 in every other run; whenever the
optimizer is created and the solver returns, whatever the code, the lines of the
distribution probe end the transcript and the exit code is 0; when the exit
code is 1, no line of the distribution probe, the final success line included,
is printed. -/
theorem main_exit_code (m : Libm K) (w : World K) :
    ((main m w).2 = 1 ↔ (w.created = false ∨ w.outcome = none)) ∧
    ((main m w).2 = 0 ↔ ¬ (w.created = false ∨ w.outcome = none)) ∧
    (∀ (r : Int) (xs : K × K) (minf : K),
      w.created = true → w.outcome = some (r, xs, minf) →
        (main m w).2 = 0 ∧ distribution_probe m <:+ (main m w).1) ∧
    ((main m w).2 = 1 → ∀ l ∈ distribution_probe m, l ∉ (main m w).1) := by
  rcases hc : w.created with _ | _
  · have hm : main m w = (matrix_probe ++ openmp_probe w ++ [[Tok.str "\nPrueba de NLopt"]] ++
        [[Tok.str "Error: No se pudo crear el optimizador NLopt"]], 1) := by
      simp [main, optimizer_probe, hc]
    rw [hm]
    refine ⟨by simp, by simp, by simp, ?_⟩
    intro _ l hl h
    rcases List.mem_append.mp h with h | h
    · exact not_mem_head m w l hl h
    · simp only [distribution_probe, List.mem_cons, List.mem_singleton, List.not_mem_nil,
        or_false] at hl
      rcases hl with rfl | rfl | rfl | rfl <;> simp at h
  · rcases ho : w.outcome with _ | ⟨r, xs, minf⟩
    · have hm : main m w = (matrix_probe ++ openmp_probe w ++ [[Tok.str "\nPrueba de NLopt"]] ++
          ([ [Tok.str "Problema de optimizacion:"],
            [Tok.str "  Minimizar: f(x,y) = (x-2)^2 + (y-1)^2"],
            [Tok.str "  Sujeto a: x + y <= 3"],
            [Tok.str "  Punto inicial: (", Tok.num 0.0, Tok.str ", ", Tok.num 0.0, Tok.str ")"],
            [Tok.str "\nEjecutando optimizacion..."] ] ++ solver_trace w.evals) ++
          [[Tok.str "Error inesperado en NLopt"]], 1) := by
        simp [main, optimizer_probe, hc, ho]
      rw [hm]
      refine ⟨by simp, by simp, by simp, ?_⟩
      intro _ l hl h
      rcases List.mem_append.mp h with h | h
      · rcases List.mem_append.mp h with h | h
        · exact not_mem_head m w l hl h
        · rcases List.mem_append.mp h with h | h
          · simp only [distribution_probe, List.mem_cons, List.mem_singleton, List.not_mem_nil,
              or_false] at hl
            rcases hl with rfl | rfl | rfl | rfl <;> simp at h
          · exact not_mem_solver_trace m w.evals l hl h
      · simp only [distribution_probe, List.mem_cons, List.mem_singleton, List.not_mem_nil,
          or_false] at hl
        rcases hl with rfl | rfl | rfl | rfl <;> simp at h
    · have hn : (optimizer_probe w).2 = Flow.next := by
        simp [optimizer_probe, hc, ho]
      have hm : (main m w).2 = 0 ∧ distribution_probe m <:+ (main m w).1 := by
        rw [main_of_next m w hn]
        exact ⟨rfl, List.suffix_append _ _⟩
      refine ⟨by simp [hm.1], by simp [hm.1], fun _ _ _ _ _ => hm, ?_⟩
      intro h1
      rw [hm.1] at h1
      exact absurd h1 (by decide)

/-- C7 at a run in which the solver returns the failure code `-1`: the exit code
is 0 and the distribution probe ends the transcript. -/
theorem main_exit_code_witness :
    (main realLibm failed_run).2 = 0 ∧
    distribution_probe realLibm <:+ (main realLibm failed_run).1 :=
  (main_exit_code realLibm failed_run).2.2.1 (-1) (0, 0) 5 rfl rfl

/-! ## Distribution probe -/

/-- The error function vanishes at `0`. -/
theorem erf_zero : erf 0 = 0 := by
  simp [erf]

/-- C8: over the reals `normal_cdf x mean std` is
`1/2 * (1 + erf ((x - mean) / (std * sqrt 2)))` and `normal_logcdf` is its
logarithm, for every `x`, `mean` and `std`; at the standard normal,
`normal_cdf 0 0 1` is exactly `0.5` and `normal_logcdf 0 0 1` is `ln 0.5`, which
is within `1e-6` of `-0.6931472`. -/
theorem normal_cdf_standard_at_zero :
    (∀ x mean std : ℝ, normal_cdf realLibm x mean std =
      1 / 2 * (1 + erf ((x - mean) / (std * Real.sqrt 2)))) ∧
    (∀ x mean std : ℝ, normal_logcdf realLibm x mean std =
      Real.log (normal_cdf realLibm x mean std)) ∧
    normal_cdf realLibm 0 0 1 = 0.5 ∧
    normal_logcdf realLibm 0 0 1 = Real.log 0.5 ∧
    |normal_logcdf realLibm 0 0 1 - (-0.6931472)| < 1e-6 := by
  have hcdf : normal_cdf realLibm 0 0 1 = 0.5 := by
    simp only [normal_cdf, realLibm, sub_zero, zero_div, erf_zero]
    norm_num
  have hlog : normal_logcdf realLibm 0 0 1 = Real.log 0.5 := by
    simp only [normal_logcdf, hcdf]
    rfl
  refine ⟨?_, fun _ _ _ => rfl, hcdf, hlog, ?_⟩
  · intro x mean std
    simp only [normal_cdf, realLibm]
    norm_num
  · have h2 : Real.log 0.5 = -Real.log 2 := by
      rw [show (0.5 : ℝ) = 2⁻¹ by norm_num, Real.log_inv]
    rw [hlog, h2, abs_lt]
    have hlo := Real.log_two_gt_d9
    have hhi := Real.log_two_lt_d9
    constructor <;> norm_num at hlo hhi ⊢ <;> linarith

/-! ## Matrix probe -/

/-- C9: the product computed by the matrix probe for `A = [[1, 2], [3, 4]]` and
`b = (5, 6)` is the vector of the dot products of the rows of `A` with `b`, it
agrees with the matrix-vector product of Mathlib, and it equals
`(1*5 + 2*6, 3*5 + 4*6) = (17, 39)`; that vector is what the probe prints. -/
theorem matrix_probe_result :
    (mat : Matrix2d K) = ⟨1, 2, 3, 4⟩ ∧ (vec : Vector2d K) = ⟨5, 6⟩ ∧
    (result : Vector2d K) =
      ⟨Vector2d.dot (Matrix2d.row0 mat) vec, Vector2d.dot (Matrix2d.row1 mat) vec⟩ ∧
    Matrix.mulVec (Matrix2d.toMatrix (mat : Matrix2d K)) (Vector2d.toFun vec) =
      Vector2d.toFun result ∧
    (result : Vector2d K) = ⟨1 * 5 + 2 * 6, 3 * 5 + 4 * 6⟩ ∧
    (result : Vector2d K) = ⟨17, 39⟩ ∧
    [Tok.str "Resultado A*b:\n", Tok.vec ⟨17, 39⟩] ∈ (matrix_probe : List (Line K)) := by
  have h : (result : Vector2d K) = ⟨17, 39⟩ := by
    simp only [result, Matrix2d.mulVec, mat, vec]
    norm_num
  refine ⟨rfl, rfl, rfl, ?_, rfl, h, ?_⟩
  · rw [h]
    ext i
    fin_cases i <;>
      simp [Matrix2d.toMatrix, Vector2d.toFun, mat, vec, Matrix.mulVec, Matrix.dotProduct,
        Fin.sum_univ_two] <;> norm_num
  · simp [matrix_probe, h]

end Nominate
